import Mathlib

/-
Verification development for the AdReader browser extension
(kyunghyuncho/AdReader).

The repository contains several generations of the same pipeline:
* src/unnamed/part_002 (background, direct-heuristic strategy) and
  src/unnamed/part_000 (background, skeleton strategy) both define
  `analyzeAdSnippet`, the per-candidate AI confirmation call;
* src/content.js, src/unnamed/part_003, src/unnamed/part_005 and
  src/unnamed/part_006 are content scripts defining `getUniqueSelector`,
  `findPotentialAds`, the `createOverlays` / `clearOverlays` message
  handlers and `clearExistingOverlays`.

Everything below is a shallow embedding of that JavaScript into Lean:
strings stay strings, the DOM becomes an explicit rose tree, network
outcomes become an explicit `FetchOutcome` type, and JavaScript's
`JSON.parse` becomes an executable fuel-indexed parser over characters.
-/

/-! ### Character and string primitives

JavaScript string helpers used by the source (`String.prototype.replace`
with a global literal pattern and empty replacement, `trim`, substring
tests from `id*=`/`class*=`/`src.includes`), re-implemented over
`List Char` so that every definition evaluates inside the kernel. -/

/-- Whitespace recognised by `String.prototype.trim` (the subset that
actually occurs in the modelled payloads). -/
def jsWs (c : Char) : Bool :=
  c = ' ' || c = '\n' || c = '\t' || c = '\r'

/-- Is `pat` a prefix of `s` (character lists)? -/
def listPre : List Char → List Char → Bool
  | [], _ => true
  | _ :: _, [] => false
  | p :: ps, c :: cs => p = c && listPre ps cs

/-- Does `pat` occur contiguously inside `s`?  Models
`String.prototype.includes` and the CSS `[attr*="v"]` substring test. -/
def listSub (pat : List Char) : List Char → Bool
  | [] => pat.isEmpty
  | c :: cs => listPre pat (c :: cs) || listSub pat cs

/-- `s.includes(pat)` / `[attr*="pat"]` on Lean strings. -/
def strSub (s pat : String) : Bool :=
  listSub pat.data s.data

/-- One left-to-right pass deleting every non-overlapping occurrence of
`pat`, the behaviour of `s.replace(/pat/g, '')` for a literal pattern.
`fuel` bounds the number of steps; callers pass the string length. -/
def delAllAux (pat : List Char) : Nat → List Char → List Char
  | 0, s => s
  | _ + 1, [] => []
  | fuel + 1, c :: cs =>
    if listPre pat (c :: cs) then delAllAux pat fuel ((c :: cs).drop pat.length)
    else c :: delAllAux pat fuel cs

/-- `s.replace(/pat/g, '')` for a non-empty literal `pat`. -/
def delAll (s pat : String) : String :=
  String.mk (delAllAux pat.data s.data.length s.data)

/-- `String.prototype.trim`. -/
def jsTrim (s : String) : String :=
  String.mk (((s.data.dropWhile jsWs).reverse.dropWhile jsWs).reverse)

/-! ### JavaScript JSON values

`JSON.parse` output, as an explicit inductive.  Numbers are modelled as
integers: no payload examined by any claim carries a fractional number,
and the parser below rejects fractional or exponent syntax instead of
mis-reading it. -/

/-- A JavaScript value produced by `JSON.parse`. -/
inductive JsValue where
  | null : JsValue
  | bool (b : Bool) : JsValue
  | num (n : Int) : JsValue
  | str (s : String) : JsValue
  | arr (elems : List JsValue) : JsValue
  | obj (fields : List (String × JsValue)) : JsValue

/-- Property access `v[k]` on a parsed value: `none` models JavaScript
`undefined`.  `JSON.parse` keeps the last of duplicate keys, so the last
binding wins. -/
def jsGet (v : JsValue) (k : String) : Option JsValue :=
  match v with
  | .obj fs => (fs.filter (fun f => f.1 == k)).getLast?.map (·.2)
  | _ => none

/-- JavaScript truthiness of a possibly-`undefined` value, as used by
`if (results[i].isAd)` and `if (text)`. -/
def jsTruthy : Option JsValue → Bool
  | none => false
  | some .null => false
  | some (.bool b) => b
  | some (.num n) => n != 0
  | some (.str s) => s != ""
  | some (.arr _) => true
  | some (.obj _) => true

/-! ### A JSON parser (`JSON.parse`)

Fuel-indexed recursive-descent parser over `List Char`.  It accepts the
JSON grammar restricted to integer numerals and to string escapes
`\" \\ \/ \n \t \r` (sufficient for every payload the claims touch);
fractional or exponent numerals and `\u` escapes are rejected rather
than misparsed.  A successful parse must consume the whole input up to
trailing whitespace, as `JSON.parse` requires. -/

/-- Drop leading JSON whitespace. -/
def skipWs : List Char → List Char
  | [] => []
  | c :: cs => if jsWs c then skipWs cs else c :: cs

/-- Parse the remainder of a JSON string literal (opening quote already
consumed), returning the decoded characters and the rest of the input. -/
def parseStrChars : List Char → Option (List Char × List Char)
  | [] => none
  | '"' :: rest => some ([], rest)
  | '\\' :: [] => none
  | '\\' :: e :: rest =>
    let dec := if e = 'n' then '\n' else if e = 't' then '\t'
      else if e = 'r' then '\r' else e
    if e = 'u' then none
    else (parseStrChars rest).map (fun p => (dec :: p.1, p.2))
  | c :: rest => (parseStrChars rest).map (fun p => (c :: p.1, p.2))

/-- Digits to a natural number, most significant first. -/
def digitsVal (ds : List Char) : Nat :=
  ds.foldl (fun acc c => acc * 10 + (c.toNat - '0'.toNat)) 0

/-- Parse an integer JSON numeral; reject fraction/exponent syntax. -/
def parseNum (cs : List Char) : Option (Int × List Char) :=
  let (neg, cs') := match cs with
    | '-' :: rest => (true, rest)
    | _ => (false, cs)
  let ds := cs'.takeWhile Char.isDigit
  let rest := cs'.dropWhile Char.isDigit
  if ds.isEmpty then none
  else match rest with
    | '.' :: _ => none
    | 'e' :: _ => none
    | 'E' :: _ => none
    | _ => some (if neg then -(digitsVal ds : Int) else (digitsVal ds : Int), rest)

mutual

/-- Parse one JSON value. -/
def parseVal : Nat → List Char → Option (JsValue × List Char)
  | 0, _ => none
  | fuel + 1, cs =>
    match skipWs cs with
    | 't' :: 'r' :: 'u' :: 'e' :: r => some (.bool true, r)
    | 'f' :: 'a' :: 'l' :: 's' :: 'e' :: r => some (.bool false, r)
    | 'n' :: 'u' :: 'l' :: 'l' :: r => some (.null, r)
    | '"' :: r => (parseStrChars r).map (fun p => (.str (String.mk p.1), p.2))
    | '[' :: r =>
      (match skipWs r with
       | ']' :: r2 => some (.arr [], r2)
       | _ => (parseElems fuel r).map (fun p => (.arr p.1, p.2)))
    | '\x7b' :: r =>
      (match skipWs r with
       | '\x7d' :: r2 => some (.obj [], r2)
       | _ => (parseFields fuel r).map (fun p => (.obj p.1, p.2)))
    | c :: r =>
      if c = '-' || c.isDigit then (parseNum (c :: r)).map (fun p => (.num p.1, p.2))
      else none
    | [] => none

/-- Parse the elements of a non-empty JSON array (after `[`). -/
def parseElems : Nat → List Char → Option (List JsValue × List Char)
  | 0, _ => none
  | fuel + 1, cs =>
    match parseVal fuel cs with
    | none => none
    | some (v, rest) =>
      match skipWs rest with
      | ',' :: r2 => (parseElems fuel r2).map (fun p => (v :: p.1, p.2))
      | ']' :: r2 => some ([v], r2)
      | _ => none

/-- Parse the fields of a non-empty JSON object (after the brace). -/
def parseFields : Nat → List Char → Option (List (String × JsValue) × List Char)
  | 0, _ => none
  | fuel + 1, cs =>
    match skipWs cs with
    | '"' :: r =>
      (match parseStrChars r with
       | none => none
       | some (key, r2) =>
         match skipWs r2 with
         | ':' :: r3 =>
           (match parseVal fuel r3 with
            | none => none
            | some (v, r4) =>
              match skipWs r4 with
              | ',' :: r5 => (parseFields fuel r5).map (fun p => ((String.mk key, v) :: p.1, p.2))
              | '\x7d' :: r5 => some ([(String.mk key, v)], r5)
              | _ => none)
         | _ => none)
    | _ => none

end

/-- `JSON.parse`: parse a complete value, demanding that nothing but
whitespace remains; `none` models a thrown `SyntaxError`. -/
def jsonParse (s : String) : Option JsValue :=
  match parseVal (s.data.length + 1) s.data with
  | some (v, rest) => if (skipWs rest).isEmpty then some v else none
  | none => none

/-! ### The confirmation stage (`analyzeAdSnippet`)

Embeds `analyzeAdSnippet` from src/unnamed/part_002 (lines 90-146) and
src/unnamed/part_000 (lines 147-176); the two versions differ only in
prompt text and model name, not in control flow.  The network is made
explicit: a `FetchOutcome` records how the single `fetch` of one request
went — `networkError` covers a rejected `fetch` (or a rejected
`response.json()`), otherwise the HTTP success flag `response.ok` and
the optionally-present classification text
`result.candidates?.[0]?.content?.parts?.[0]?.text` are recorded. -/

/-- Outcome of the one `fetch` performed by a confirmation request. -/
inductive FetchOutcome where
  | networkError : FetchOutcome
  | response (ok : Bool) (text : Option String) : FetchOutcome

/-- The safe default `{isAd: false, description: ""}` returned on every
failure path of `analyzeAdSnippet`. -/
def defaultResult : JsValue :=
  .obj [("isAd", .bool false), ("description", .str "")]

/-- `text.replace(/```json/g, '').replace(/```/g, '').trim()`. -/
def cleanOf (t : String) : String :=
  jsTrim (delAll (delAll t "```json") "```")

/-- `analyzeAdSnippet`: per-candidate confirmation call.  Mirrors the
source's `try`/`catch` cascade: a rejected fetch, a non-ok status, an
absent or empty (falsy) text, or a `JSON.parse` failure all fall through
to the safe default; a successfully parsed payload is returned verbatim,
with no validation of its shape. -/
def analyzeAdSnippet : FetchOutcome → JsValue
  | .networkError => defaultResult
  | .response ok text =>
    if !ok then defaultResult
    else match text with
      | none => defaultResult
      | some t =>
        if t == "" then defaultResult
        else match jsonParse (cleanOf t) with
          | some v => v
          | none => defaultResult

/-- The successfully parsed payload of an outcome, when the happy path
is taken; `none` on every failure path. -/
def parsedPayload : FetchOutcome → Option JsValue
  | .networkError => none
  | .response ok text =>
    if !ok then none
    else match text with
      | none => none
      | some t => if t == "" then none else jsonParse (cleanOf t)

/-- The failure condition of one confirmation request: transport
failure, non-success HTTP status, missing or empty classification text,
or fence-stripped text that `JSON.parse` rejects. -/
def isFailure : FetchOutcome → Bool
  | .networkError => true
  | .response ok text =>
    !ok || (match text with
      | none => true
      | some t => t == "" || (jsonParse (cleanOf t)).isNone)

/-- The fan-out of step 4/6 of the orchestrators:
`adCandidates.map(c => analyzeAdSnippet(c.html, apiKey))` followed by
`Promise.all`, with `outs i` the network outcome of request `i`.  The
result list is in dispatch order, one slot per request. -/
def classifyAll (outs : Nat → FetchOutcome) (n : Nat) : List JsValue :=
  (List.range n).map (fun i => analyzeAdSnippet (outs i))

/-- Is the payload a single JSON object with exactly the two expected
keys `isAd` and `description`? -/
def isTwoKeyObj : JsValue → Bool
  | .obj fs => (fs.map (·.1)) == ["isAd", "description"]
  | _ => false

/-- `description` is a non-empty string. -/
def descNonempty (v : JsValue) : Bool :=
  match jsGet v "description" with
  | some (.str s) => s != ""
  | _ => false

/-- `isAd` is the boolean `true`. -/
def isAdTrue (v : JsValue) : Bool :=
  match jsGet v "isAd" with
  | some (.bool true) => true
  | _ => false

/-- The spec invariant on a ClassificationResult: `description` is
non-empty iff `isAd` is true. -/
def classInvariant (v : JsValue) : Bool :=
  descNonempty v == isAdTrue v

/-! ### Page state and the content-script message handlers

The page is modelled as the list of elements currently attached under
`document.body` that matter to the overlay lifecycle: each carries its
class list and, for overlay widgets, the description that was rendered
into them.  `createOverlayForElement` appends one element with class
`ad-reader-overlay`; `clearExistingOverlays` removes every element whose
class list carries that marker (`querySelectorAll('.ad-reader-overlay')`
followed by `remove()`), from src/content.js lines 97-100 and
src/unnamed/part_003 / part_005 / part_006. -/

/-- An element tracked by the overlay model: its class tokens, and the
description stored in it when it is an overlay widget. -/
structure PageElem where
  classes : List String
  desc : Option JsValue

/-- The page's element list (document order). -/
abbrev PageState := List PageElem

/-- Does the element carry the overlay marker class? -/
def isOverlay (e : PageElem) : Bool :=
  e.classes.contains "ad-reader-overlay"

/-- `clearExistingOverlays()`: remove every element matching
`.ad-reader-overlay` in one sweep. -/
def clearExistingOverlays (page : PageState) : PageState :=
  page.filter (fun e => !isOverlay e)

/-- Number of overlay widgets currently on the page. -/
def overlayCount (page : PageState) : Nat :=
  (page.filter isOverlay).length

/-- The overlay widget `createOverlayForElement` appends for one ad. -/
def mkOverlay (d : Option JsValue) : PageElem :=
  { classes := ["ad-reader-overlay"], desc := d }

/-- Result of `document.querySelector(sel)` for one ad selector:
a thrown `SyntaxError`, no match (`null`), or the first match. -/
inductive ResolveResult where
  | syntaxError : ResolveResult
  | noMatch : ResolveResult
  | found : ResolveResult

/-- Did the selector resolve to an element? -/
def resolvesOk : ResolveResult → Bool
  | .found => true
  | _ => false

/-- One confirmed ad `{selector, description}` as the orchestrator
builds it: `description` is whatever `results[i].description` was, so it
may be absent (`undefined`) or a non-string value. -/
structure Ad where
  selector : String
  description : Option JsValue

/-- One candidate `{selector, html}` produced by a Discovery Strategy. -/
structure Candidate where
  selector : String
  html : String
deriving DecidableEq

/-- A runtime message as the content scripts receive it: the action tag,
the `data.ads` payload of `createOverlays` (collapsed to `none` when
`data` or `data.ads` is missing), and the `selectors` payload of
`getAdSnippets`. -/
structure Request where
  action : String
  ads : Option (List Ad)
  selectors : List String

/-- A value passed to `sendResponse`. -/
inductive ContentResponse where
  | result (status : String) (count : Nat) : ContentResponse
  | html (s : String) : ContentResponse
  | cands (cs : List Candidate) : ContentResponse

/-- The `createOverlays` loop shared by every content script: clear
first, then for each ad `querySelector` its selector inside `try`;
a syntax error or a null match skips the ad, a found element gets an
overlay appended and increments the count. -/
def renderLoop (resolve : String → ResolveResult) (ads : List Ad)
    (page : PageState) : PageState × Nat :=
  ads.foldl
    (fun st ad =>
      match resolve ad.selector with
      | .found => (st.1 ++ [mkOverlay ad.description], st.2 + 1)
      | .noMatch => st
      | .syntaxError => st)
    (page, 0)

/-- The message listener of src/content.js (lines 6-37): handles
`createOverlays` (clear, render, respond with the count) and
`clearOverlays` (clear, no response); any other action falls through
the `if`/`else if` chain without touching the page or responding. -/
def contentHandler (resolve : String → ResolveResult) (req : Request)
    (page : PageState) : PageState × Option ContentResponse :=
  if req.action == "createOverlays" then
    let page1 := clearExistingOverlays page
    match req.ads with
    | some ads =>
      if ads.length > 0 then
        let (page2, n) := renderLoop resolve ads page1
        (page2, some (.result "success" n))
      else (page1, some (.result "success" 0))
    | none => (page1, some (.result "success" 0))
  else if req.action == "clearOverlays" then
    (clearExistingOverlays page, none)
  else (page, none)

/-- The message listener of src/unnamed/part_005 (lines 66-104), which
additionally serves `getSkeletonHtml` (responding with the skeleton
produced by `createSkeletonHtml`, supplied here as `skel`) and
`getAdSnippets` (resolving each requested selector, `snip sel = none`
for a thrown `SyntaxError`, `some none` for no match, and dropping both
via `filter(Boolean)`).  Unrecognised actions again fall through. -/
def part005Handler (skel : String) (snip : String → Option (Option String))
    (resolve : String → ResolveResult) (req : Request)
    (page : PageState) : PageState × Option ContentResponse :=
  if req.action == "getSkeletonHtml" then
    (page, some (.html skel))
  else if req.action == "getAdSnippets" then
    let snippets := req.selectors.filterMap (fun sel =>
      match snip sel with
      | some (some h) => some (Candidate.mk sel h)
      | some none => none
      | none => none)
    (page, some (.cands snippets))
  else if req.action == "createOverlays" then
    let page1 := clearExistingOverlays page
    match req.ads with
    | some ads =>
      if ads.length > 0 then
        let (page2, n) := renderLoop resolve ads page1
        (page2, some (.result "success" n))
      else (page1, some (.result "success" 0))
    | none => (page1, some (.result "success" 0))
  else if req.action == "clearOverlays" then
    (clearExistingOverlays page, none)
  else (page, none)

/-! ### The scan orchestrators

Two background-script generations are embedded, as cited by the claims:

* `scanForAds002` — src/unnamed/part_002 lines 18-81 (direct-heuristic
  strategy): inject content script, ask it for `findAdCandidates`,
  short-circuit on zero candidates, *then* read the API key, classify
  every candidate in parallel, filter to confirmed ads, and send
  `createOverlays` only when at least one ad was confirmed.
* `scanForAds000` — src/unnamed/part_000 lines 18-99 (skeleton
  strategy): inject, read the API key *first*, fetch the page skeleton,
  one discovery request, re-resolve the suggested selectors into
  snippets, classify, and again send `createOverlays` only when at
  least one ad was confirmed.

Each scan records a trace of the externally visible steps it performs,
in order, so that ordering claims ("before any network call") are
statements about the trace.  The per-request network outcomes and the
page-side responses are supplied by an environment record; the
`tabId`-missing path of part_000 (throw before any step) is outside the
environments modelled here. -/

/-- Externally visible steps of one scan, in execution order. -/
inductive Event where
  | inject : Event
  | discover : Event
  | readKey : Event
  | openOptions : Event
  | fetchDiscovery : Event
  | fetchClassify (i : Nat) : Event
  | requestSnippets : Event
  | sendOverlays : Event
deriving DecidableEq

/-- The value the orchestrator hands to `sendResponse`. -/
inductive ScanResult where
  | success (count : Nat) : ScanResult
  | error (message : String) : ScanResult
deriving DecidableEq

/-- The message of the distinguished missing-credential error. -/
def configMsg : String := "API key is not set. Please set it in the options."

/-- What one scan did: its step trace, its response, and the page left
behind. -/
structure ScanOut where
  trace : List Event
  result : ScanResult
  page : PageState

/-- Environment of one part_002 scan: the stored credential, the
candidates the content script reports, the network outcome of each
classification request (by dispatch index), and page-side selector
resolution at render time. -/
structure Env2 where
  apiKey : Option String
  candidates : List Candidate
  outcomes : Nat → FetchOutcome
  resolve : String → ResolveResult

/-- Step 4 of part_002: one classification result per candidate. -/
def results002 (env : Env2) : List JsValue :=
  classifyAll env.outcomes env.candidates.length

/-- Step 5 of part_002: keep candidate `i` when `results[i].isAd` is
truthy, pairing its selector with `results[i].description`. -/
def confirmed002 (env : Env2) : List Ad :=
  (env.candidates.zip (results002 env)).filterMap (fun cr =>
    if jsTruthy (jsGet cr.2 "isAd") then
      some { selector := cr.1.selector, description := jsGet cr.2 "description" }
    else none)

/-- Count carried by a `createOverlays` response (`response.count`). -/
def countOf : Option ContentResponse → Nat
  | some (.result _ n) => n
  | _ => 0

/-- The part_002 `scanForAds` listener. -/
def scanForAds002 (env : Env2) (page : PageState) : ScanOut :=
  if env.candidates.isEmpty then
    { trace := [.inject, .discover], result := .success 0, page := page }
  else
    match env.apiKey with
    | none =>
      { trace := [.inject, .discover, .readKey, .openOptions],
        result := .error configMsg, page := page }
    | some _ =>
      let evs := [Event.inject, .discover, .readKey] ++
        (List.range env.candidates.length).map Event.fetchClassify
      let confirmed := confirmed002 env
      if confirmed.isEmpty then
        { trace := evs, result := .success 0, page := page }
      else
        let out := contentHandler env.resolve
          { action := "createOverlays", ads := some confirmed, selectors := [] } page
        { trace := evs ++ [.sendOverlays],
          result := .success (countOf out.2), page := out.1 }

/-- Environment of one part_000 scan: the credential, the skeleton the
content script reports (`none` for a falsy response), the outcome of the
discovery request, per-selector snippet recovery (`getAdSnippets`), the
outcome of each classification request, and render-time resolution. -/
structure Env0 where
  apiKey : Option String
  skeleton : Option String
  stage1 : FetchOutcome
  snip : String → Option (Option String)
  outcomes : Nat → FetchOutcome
  resolve : String → ResolveResult

/-- `findAdSelectorsFromSkeleton` (part_000 lines 104-141): on any
transport or parse failure return `[]`; otherwise read
`parsed.selectors || []`.  Only the string entries of a `selectors`
array are retained here: a non-array or non-string entry would merely
fail downstream at `querySelector`, and no claim depends on one. -/
def findAdSelectorsFromSkeleton (o : FetchOutcome) : List String :=
  match parsedPayload o with
  | none => []
  | some v =>
    match jsGet v "selectors" with
    | some (.arr xs) => xs.filterMap (fun x =>
        match x with
        | .str s => some s
        | _ => none)
    | _ => []

/-- Step 5 of part_000: the snippets `getAdSnippets` sends back, one per
selector that resolves without error (part_005 lines 70-81). -/
def snippets000 (env : Env0) : List Candidate :=
  (findAdSelectorsFromSkeleton env.stage1).filterMap (fun sel =>
    match env.snip sel with
    | some (some h) => some (Candidate.mk sel h)
    | some none => none
    | none => none)

/-- Steps 6-7 of part_000: classify every snippet, keep the truthy-isAd
ones. -/
def confirmed000 (env : Env0) : List Ad :=
  ((snippets000 env).zip (classifyAll env.outcomes (snippets000 env).length)).filterMap
    (fun cr =>
      if jsTruthy (jsGet cr.2 "isAd") then
        some { selector := cr.1.selector, description := jsGet cr.2 "description" }
      else none)

/-- The part_000 `scanForAds` listener. -/
def scanForAds000 (env : Env0) (page : PageState) : ScanOut :=
  match env.apiKey with
  | none =>
    { trace := [.inject, .readKey, .openOptions],
      result := .error configMsg, page := page }
  | some _ =>
    if (match env.skeleton with | none => true | some s => s == "") then
      { trace := [.inject, .readKey, .discover], result := .success 0, page := page }
    else
      let evs := [Event.inject, .readKey, .discover, .fetchDiscovery]
      let sels := findAdSelectorsFromSkeleton env.stage1
      if sels.isEmpty then
        { trace := evs, result := .success 0, page := page }
      else
        let evs2 := evs ++ [Event.requestSnippets] ++
          (List.range (snippets000 env).length).map Event.fetchClassify
        let confirmed := confirmed000 env
        if confirmed.isEmpty then
          { trace := evs2, result := .success 0, page := page }
        else
          let out := contentHandler env.resolve
            { action := "createOverlays", ads := some confirmed, selectors := [] } page
          { trace := evs2 ++ [.sendOverlays],
            result := .success (countOf out.2), page := out.1 }

/-! ### The Selector Generator

The DOM is a rose tree of elements; an element is addressed by the list
of child indices leading to it from a chosen root.  `getUniqueSelector`
walks from the element up to `document.body`, so the generators below
take the body element as the root together with the index path of the
element.  The source's bottom-up string building is embedded as the
equivalent top-down accumulation of one `(tag, index)` step per level;
the embedding assumes (as every HTML document satisfies) that no
element strictly between the body and the target carries tag `body`,
since the source walk would break early at such an element — theorems
state this hypothesis explicitly via `innerBodyFree`.  Tags are stored
already lower-cased, as `tagName.toLowerCase()` produces them. -/

/-- A DOM element: tag name (lower case), `id` attribute (empty string
when absent, as in the DOM API), and child elements in order. -/
inductive Dom where
  | el (tag : String) (id : String) (children : List Dom) : Dom

/-- The element's tag. -/
def tagOf : Dom → String
  | .el t _ _ => t

/-- The element's `id` attribute (empty when absent). -/
def idOf : Dom → String
  | .el _ i _ => i

/-- The element's children. -/
def childrenOf : Dom → List Dom
  | .el _ _ cs => cs

/-- The element at an index path below `d`, if the path is valid. -/
def subAt : Dom → List Nat → Option Dom
  | d, [] => some d
  | d, i :: p =>
    match (childrenOf d)[i]? with
    | some c => subAt c p
    | none => none

/-- The `nth-of-type` index of child `i`: `1 +` the number of earlier
siblings with the same tag, exactly the `previousElementSibling` count
of part_005 lines 13-21. -/
def typeIndex (cs : List Dom) (i : Nat) : Nat :=
  match cs[i]? with
  | some c => ((cs.take i).filter (fun d => tagOf d == tagOf c)).length + 1
  | none => 0

/-- The steps `(tag, nth-of-type index)` along a path, root's child
first — the part_005 walk read top-down. -/
def stepsTy : Dom → List Nat → Option (List (String × Nat))
  | _, [] => some []
  | d, i :: p =>
    match (childrenOf d)[i]? with
    | some c => (stepsTy c p).map (fun rest => (tagOf c, typeIndex (childrenOf d) i) :: rest)
    | none => none

/-- The steps `(tag, nth-child index)` along a path: part_003 and
part_006 use `children.indexOf(currentEl) + 1`, the 1-based position
among *all* siblings. -/
def stepsCh : Dom → List Nat → Option (List (String × Nat))
  | _, [] => some []
  | d, i :: p =>
    match (childrenOf d)[i]? with
    | some c => (stepsCh c p).map (fun rest => (tagOf c, i + 1) :: rest)
    | none => none

/-- Render a step list the way the sources assemble `path` with
`nth-of-type`: `body > t1:nth-of-type(k1) > t2:nth-of-type(k2)`. -/
def renderTy (steps : List (String × Nat)) : String :=
  "body" ++ String.join (steps.map (fun s =>
    " > " ++ s.1 ++ ":nth-of-type(" ++ toString s.2 ++ ")"))

/-- Render a step list with `nth-child`, as part_003/part_006 do. -/
def renderCh (steps : List (String × Nat)) : String :=
  "body" ++ String.join (steps.map (fun s =>
    " > " ++ s.1 ++ ":nth-child(" ++ toString s.2 ++ ")"))

/-- `el.id.replace(/:/g, '\\:')` over characters. -/
def escChars : List Char → List Char
  | [] => []
  | c :: cs => if c = ':' then '\\' :: ':' :: escChars cs else c :: escChars cs

/-- Colon-escaping of an id, as part_005 line 8 / part_006 line 11. -/
def escapeColons (s : String) : String :=
  String.mk (escChars s.data)

/-- `getUniqueSelector` of src/unnamed/part_005 (lines 6-28): an
ID-based selector with colons escaped when the element has an id,
otherwise the `nth-of-type` path from the body.  The element is given
as root (the body) plus index path; `none` signals an invalid path,
which cannot arise for an attached element. -/
def getUniqueSelector005 (body : Dom) (p : List Nat) : Option String :=
  match subAt body p with
  | none => none
  | some e =>
    if idOf e != "" then some ("#" ++ escapeColons (idOf e))
    else (stepsTy body p).map renderTy

/-- `getUniqueSelector` of src/unnamed/part_006 (lines 8-29): same id
branch as part_005, but the path branch uses `nth-child` with the
position among all siblings. -/
def getUniqueSelector006 (body : Dom) (p : List Nat) : Option String :=
  match subAt body p with
  | none => none
  | some e =>
    if idOf e != "" then some ("#" ++ escapeColons (idOf e))
    else (stepsCh body p).map renderCh

/-- `getUniqueSelector` of src/unnamed/part_003 (lines 8-29): the id
branch emits `#${el.id}` with *no* escaping; the path branch is the
`nth-child` one. -/
def getUniqueSelector003 (body : Dom) (p : List Nat) : Option String :=
  match subAt body p with
  | none => none
  | some e =>
    if idOf e != "" then some ("#" ++ idOf e)
    else (stepsCh body p).map renderCh

/-! #### Resolution of the generated selectors

`document.querySelector` on a generated path selector.  The selector
`body > t1:nth-of-type(k1) > ... ` starts at the (unique) body and
follows one child-combinator step per level, so resolution is embedded
structurally: `resolveTy body steps` is the list of index paths of all
elements matching the chain, in document order. -/

/-- Children of `d` matching one `tag:nth-of-type(k)` step. -/
def matchTy (d : Dom) (t : String) (k : Nat) : List Nat :=
  (List.range (childrenOf d).length).filter (fun i =>
    (match (childrenOf d)[i]? with
     | some c => tagOf c == t
     | none => false) && typeIndex (childrenOf d) i == k)

/-- All elements matching a chain of `nth-of-type` steps below `d`. -/
def resolveTy (d : Dom) : List (String × Nat) → List (List Nat)
  | [] => [[]]
  | (t, k) :: rest =>
    (matchTy d t k).flatMap (fun i =>
      match (childrenOf d)[i]? with
      | some c => (resolveTy c rest).map (fun q => i :: q)
      | none => [])

/-- Children of `d` matching one `tag:nth-child(k)` step. -/
def matchCh (d : Dom) (t : String) (k : Nat) : List Nat :=
  (List.range (childrenOf d).length).filter (fun i =>
    (match (childrenOf d)[i]? with
     | some c => tagOf c == t
     | none => false) && i + 1 == k)

/-- All elements matching a chain of `nth-child` steps below `d`. -/
def resolveCh (d : Dom) : List (String × Nat) → List (List Nat)
  | [] => [[]]
  | (t, k) :: rest =>
    (matchCh d t k).flatMap (fun i =>
      match (childrenOf d)[i]? with
      | some c => (resolveCh c rest).map (fun q => i :: q)
      | none => [])

/-- No element strictly between the root and the element at `p` has tag
`body` (and the path is valid): under this hypothesis the source's
walk-up, which breaks at the first `body` parent, collects exactly the
steps of the whole path. -/
def innerBodyFree : Dom → List Nat → Bool
  | _, [] => true
  | d, [i] => ((childrenOf d)[i]?).isSome
  | d, i :: p =>
    match (childrenOf d)[i]? with
    | some c => tagOf c != "body" && innerBodyFree c p
    | none => false

/-! #### ID selectors as strings

An unescaped colon in `#id` starts a pseudo-class in selector grammar,
so `document.querySelector('#foo:bar')` throws a `SyntaxError`.
`parseIdSel` embeds the relevant fragment of that grammar: after `#` a
CSS identifier.  A CSS identifier may not begin with a digit, nor with
a hyphen followed by a digit, nor be a bare hyphen — it must open with
an ident-start character (letter or underscore here; the embedding
stays within ASCII), a hyphen followed by ident-start, hyphen or
escape, or a backslash escape — and continues with ident characters or
escapes, in which a backslash escapes the next character.  Anything
else (a naked colon, a leading digit as in `#1ad`, a digit-leading
hyphen) fails, modelling the thrown `SyntaxError`. -/

/-- A character allowed un-escaped at a non-initial position of an id
selector identifier (the CSS `nmchar` class, ASCII fragment). -/
def identChar (c : Char) : Bool :=
  c.isAlphanum || c = '-' || c = '_'

/-- A character allowed un-escaped at the start of a CSS identifier
(the CSS ident-start class, ASCII fragment): a letter or underscore —
digits are excluded. -/
def identStart (c : Char) : Bool :=
  c.isAlpha || c = '_'

/-- May a CSS identifier begin with these characters?  Valid openings:
an escape, an ident-start character, or a hyphen followed by an
ident-start character, another hyphen or an escape.  A leading digit, a
bare hyphen, or a hyphen followed by a digit are invalid. -/
def identStartOk : List Char → Bool
  | [] => false
  | '\\' :: _ => true
  | '-' :: rest =>
    (match rest with
     | [] => false
     | '\\' :: _ => true
     | '-' :: _ => true
     | c2 :: _ => identStart c2)
  | c :: _ => identStart c

/-- Parse an id-selector identifier body with backslash escapes (the
positional start restriction is checked by `parseIdSel`). -/
def parseIdent : List Char → Option (List Char)
  | [] => some []
  | c :: rest =>
    if c = '\\' then
      match rest with
      | [] => none
      | c2 :: rest2 => (parseIdent rest2).map (fun s => c2 :: s)
    else if identChar c then (parseIdent rest).map (fun s => c :: s)
    else none

/-- Parse a `#id` selector string to the id it denotes; `none` models a
thrown `SyntaxError`.  The identifier must open as a CSS identifier may
(`identStartOk`) and every later character must be an ident character
or escaped. -/
def parseIdSel (s : String) : Option String :=
  match s.data with
  | '#' :: rest =>
    if identStartOk rest then
      match parseIdent rest with
      | some [] => none
      | some cs => some (String.mk cs)
      | none => none
    else none
  | _ => none

/-- The id is, after part_005's colon escaping, a valid CSS identifier
of the modelled (ASCII) fragment: every character is a plain ident
character or a colon, and the escaped form opens as a CSS identifier
may — in particular the id does not start with a digit or a
digit-leading hyphen.  (A conservative subset of the ids browsers
accept: non-ASCII identifiers are out of scope of the embedding.) -/
def idSafe (s : String) : Bool :=
  s.data.all (fun c => identChar c || c = ':') && identStartOk (escChars s.data)

/-- Does the element at path `q` in `doc` carry id `i`?  The resolution
of a parsed `#i` selector: `document.querySelector` returns the first
element whose id equals the denoted identifier, so under a uniqueness
hypothesis the matching paths characterise its result. -/
def idMatches (doc : Dom) (q : List Nat) (i : String) : Bool :=
  match subAt doc q with
  | some e => idOf e == i
  | none => false

/-! ### The direct heuristic Candidate Scanner (`findPotentialAds`)

The scanner inspects per-element attributes, geometry and computed
style, and never the tree structure, so the document is presented to it
as its element list in document order, each element carrying exactly
the properties the detectors read.  The `selector` field stands for
`getUniqueSelector(el)` — the scanner calls the generator but never
inspects the string it returns, so the value is carried as data.
`height`/`width` are the bounding-box dimensions (integral here; the
thresholds compare with 30), and `top`/`bottom` are
`parseInt(style.top/bottom)` with `none` for `NaN`, which makes the
`< 10` comparison false as it is in JavaScript. -/

/-- One rendered element, as seen by the heuristic detectors. -/
structure ElemInfo where
  tag : String
  id : String
  className : String
  selector : String
  outerHTML : String
  height : Int
  width : Int
  offsetParentNull : Bool
  src : String
  targetBlank : Bool
  hasImgChild : Bool
  role : String
  ariaLabel : String
  dataAdClient : Bool
  dataAdSlot : Bool
  dataAdFormat : Bool
  dataAdManagerId : Bool
  position : String
  top : Option Int
  bottom : Option Int

/-- The multilingual keyword list of part_006 lines 50-81. -/
def adKeywords006 : List String :=
  ["ad", "advert", "sponsor", "promo", "banner", "google_ads", "doubleclick",
   "ad-slot", "ad-container", "advertisement", "sponsored", "promotion", "affiliate",
   "anuncio", "publicidad", "patrocinado",
   "publicité", "annonce", "sponsorisé", "pub",
   "werbung", "anzeige", "gesponsert",
   "anúncio", "publicidade", "patrocinado",
   "pubblicità", "annuncio", "sponsorizzato",
   "advertentie", "gesponsord",
   "広告", "スポンサー", "广告", "赞助", "광고",
   "реклама", "спонсор", "विज्ञापन", "إعلان"]

/-- The keyword list of part_003 line 39. -/
def adKeywords003 : List String :=
  ["ad", "advert", "sponsor", "promo", "banner", "google_ads", "doubleclick"]

/-- Does the element match `[id*="kw"], [class*="kw"]` for some keyword
of the list? -/
def matchesKeyword (kws : List String) (e : ElemInfo) : Bool :=
  kws.any (fun kw => strSub e.id kw || strSub e.className kw)

/-- The size-and-visibility filter of `addCandidate` (part_006 lines
39-47) and of the keyword pass of part_003 (line 47):
`rect.height > 30 && rect.width > 30 && el.offsetParent !== null`. -/
def passesFilter (e : ElemInfo) : Bool :=
  e.height > 30 && e.width > 30 && !e.offsetParentNull

/-- The candidate built from a nominated element. -/
def mkCand (e : ElemInfo) : Candidate :=
  { selector := e.selector, html := e.outerHTML }

/-- `addCandidate` of part_006: apply the filter, then insert into the
selector-keyed map unless the selector is already present (first
nomination wins; insertion order is preserved). -/
def addCandidate (acc : List Candidate) (e : ElemInfo) : List Candidate :=
  if passesFilter e then
    if acc.any (fun c => c.selector == e.selector) then acc
    else acc ++ [mkCand e]
  else acc

/-- Detector 2 of part_006: any of the known ad-network data
attributes. -/
def hasDataAdAttr (e : ElemInfo) : Bool :=
  e.dataAdClient || e.dataAdSlot || e.dataAdFormat || e.dataAdManagerId

/-- Detector 3 of part_006: iframe whose `src` names an ad network. -/
def adIframe006 (e : ElemInfo) : Bool :=
  e.tag == "iframe" &&
    (strSub e.src "googlesyndication" || strSub e.src "doubleclick" ||
     strSub e.src "amazon-adsystem" || strSub e.src "adservice")

/-- Detector 4 of part_006: `a[target="_blank"]` containing an `img`. -/
def anchorWithImg (e : ElemInfo) : Bool :=
  e.tag == "a" && e.targetBlank && e.hasImgChild

/-- Detector 5 of part_006: the ARIA-role query
`[role="complementary"], [role="region"][aria-label*="advert"],
[role="banner"]`. -/
def ariaAdRole (e : ElemInfo) : Bool :=
  e.role == "complementary" ||
  (e.role == "region" && strSub e.ariaLabel "advert") ||
  e.role == "banner"

/-- Detector 6 of part_006: a `div` or `section` with fixed/sticky
position pinned within 10px of a viewport edge (`parseInt` of a
non-numeric style yields `NaN`, whose comparison is false). -/
def stickyEdge (e : ElemInfo) : Bool :=
  (e.tag == "div" || e.tag == "section") &&
  (e.position == "fixed" || e.position == "sticky") &&
  ((match e.bottom with | some b => b < 10 | none => false) ||
   (match e.top with | some t => t < 10 | none => false))

/-- `findPotentialAds` of src/unnamed/part_006 (lines 36-121): the six
detector passes run in source order over the document, every nomination
funnelled through `addCandidate`. -/
def findPotentialAds006 (els : List ElemInfo) : List Candidate :=
  let pass1 := (els.filter (matchesKeyword adKeywords006)).foldl addCandidate []
  let pass2 := (els.filter hasDataAdAttr).foldl addCandidate pass1
  let pass3 := (els.filter adIframe006).foldl addCandidate pass2
  let pass4 := (els.filter anchorWithImg).foldl addCandidate pass3
  let pass5 := (els.filter ariaAdRole).foldl addCandidate pass4
  (els.filter stickyEdge).foldl addCandidate pass5

/-- Detector 2 of part_003: iframe from `googlesyndication` or
`doubleclick`. -/
def adIframe003 (e : ElemInfo) : Bool :=
  e.tag == "iframe" && (strSub e.src "googlesyndication" || strSub e.src "doubleclick")

/-- JavaScript `Map` construction over `[selector, item]` pairs: the
order of first occurrence of each selector, the item of its last
occurrence. -/
def upsert (acc : List Candidate) (c : Candidate) : List Candidate :=
  if acc.any (fun d => d.selector == c.selector) then
    acc.map (fun d => if d.selector == c.selector then c else d)
  else acc ++ [c]

/-- `Array.from(new Map(cs.map(item => [item.selector, item])).values())`. -/
def dedupeLast (cs : List Candidate) : List Candidate :=
  cs.foldl upsert []

/-- `findPotentialAds` of src/unnamed/part_003 (lines 36-66): the
keyword pass applies the size-and-visibility filter before pushing, but
the ad-network iframe pass (lines 53-60) pushes unconditionally; the
two passes are then deduplicated by selector, last item winning. -/
def findPotentialAds003 (els : List ElemInfo) : List Candidate :=
  let kwCands := (els.filter (matchesKeyword adKeywords003)).filterMap
    (fun e => if passesFilter e then some (mkCand e) else none)
  let ifCands := (els.filter adIframe003).map mkCand
  dedupeLast (kwCands ++ ifCands)

/-! ### Helper lemmas -/

/-- The ads a `createOverlays` invocation actually renders: those whose
selector resolves to an element. -/
def resolvedAds (resolve : String → ResolveResult) (ads : List Ad) : List Ad :=
  ads.filter (fun ad => resolvesOk (resolve ad.selector))

/-- The rendered count of a `createOverlays` invocation. -/
def renderCount (resolve : String → ResolveResult) (ads : List Ad) : Nat :=
  (resolvedAds resolve ads).length

/-- Unfolding of the render loop: starting from any page and count, it
appends one overlay per resolving ad, in order, and adds the number of
resolving ads to the count. -/
theorem renderLoop_foldl (resolve : String → ResolveResult) (ads : List Ad)
    (page : PageState) (n : Nat) :
    ads.foldl
      (fun st ad =>
        match resolve ad.selector with
        | .found => (st.1 ++ [mkOverlay ad.description], st.2 + 1)
        | .noMatch => st
        | .syntaxError => st)
      (page, n) =
    (page ++ (resolvedAds resolve ads).map (fun ad => mkOverlay ad.description),
      n + renderCount resolve ads) := by
  induction ads generalizing page n with
  | nil => simp [resolvedAds, renderCount]
  | cons a as ih =>
    simp only [List.foldl_cons]
    cases h : resolve a.selector with
    | found =>
      rw [ih]
      simp [resolvedAds, renderCount, List.filter_cons, h, resolvesOk]
      omega
    | noMatch =>
      rw [ih]
      simp [resolvedAds, renderCount, List.filter_cons, h, resolvesOk]
    | syntaxError =>
      rw [ih]
      simp [resolvedAds, renderCount, List.filter_cons, h, resolvesOk]

/-- Specification of `renderLoop`. -/
theorem renderLoop_spec (resolve : String → ResolveResult) (ads : List Ad)
    (page : PageState) :
    renderLoop resolve ads page =
    (page ++ (resolvedAds resolve ads).map (fun ad => mkOverlay ad.description),
      renderCount resolve ads) := by
  unfold renderLoop
  rw [renderLoop_foldl]
  simp

/-- Clearing is idempotent (filter of a filter). -/
theorem clear_clear (page : PageState) :
    clearExistingOverlays (clearExistingOverlays page) = clearExistingOverlays page := by
  unfold clearExistingOverlays
  rw [List.filter_filter]
  apply List.filter_congr
  intro e _
  cases h : isOverlay e <;> simp [h]

/-- After a clear, no overlay remains. -/
theorem overlayCount_clear (page : PageState) :
    overlayCount (clearExistingOverlays page) = 0 := by
  unfold overlayCount clearExistingOverlays
  rw [List.filter_filter]
  simp only [List.length_eq_zero, List.filter_eq_nil_iff]
  intro e _
  cases h : isOverlay e <;> simp [h]

/-- On a page with no overlays, clearing changes nothing. -/
theorem clear_of_no_overlays (page : PageState) (h : overlayCount page = 0) :
    clearExistingOverlays page = page := by
  unfold overlayCount at h
  rw [List.length_eq_zero, List.filter_eq_nil_iff] at h
  unfold clearExistingOverlays
  apply List.filter_eq_self.mpr
  intro e he
  simp [h e he]

/-! ### Claim C9 — idempotent clear -/

/-- C9: the clear-overlays operation is idempotent — clearing twice in
a row equals clearing once, any clear leaves zero elements carrying the
marker class, and clearing an already-overlay-free page is a no-op. -/
theorem c9_clear_idempotent (page : PageState) :
    clearExistingOverlays (clearExistingOverlays page) = clearExistingOverlays page ∧
    overlayCount (clearExistingOverlays page) = 0 ∧
    (overlayCount page = 0 → clearExistingOverlays page = page) :=
  ⟨clear_clear page, overlayCount_clear page, clear_of_no_overlays page⟩

/-- Witness for C9 at a concrete page holding one overlay widget and
one unrelated element, and at the empty page for the no-op clause. -/
theorem c9_clear_idempotent_witness :
    overlayCount ([] : PageState) = 0 ∧
    clearExistingOverlays ([] : PageState) = [] ∧
    clearExistingOverlays (clearExistingOverlays
      [mkOverlay none, PageElem.mk ["nav"] none]) =
      clearExistingOverlays [mkOverlay none, PageElem.mk ["nav"] none] :=
  ⟨rfl, (c9_clear_idempotent []).2.2 rfl,
    (c9_clear_idempotent [mkOverlay none, PageElem.mk ["nav"] none]).1⟩

/-! ### Claim C10 — unrecognized actions are silent no-ops -/

/-- C10: a message whose action is none of the recognized actions falls
through every branch of the content-script listeners (src/content.js
lines 6-37 and src/unnamed/part_005 lines 66-104): the page is
unchanged and no response is sent. -/
theorem c10_unknown_action_noop (resolve : String → ResolveResult)
    (skel : String) (snip : String → Option (Option String))
    (req : Request) (page page5 : PageState)
    (h1 : req.action ≠ "createOverlays") (h2 : req.action ≠ "clearOverlays")
    (h3 : req.action ≠ "getSkeletonHtml") (h4 : req.action ≠ "getAdSnippets") :
    contentHandler resolve req page = (page, none) ∧
    part005Handler skel snip resolve req page5 = (page5, none) := by
  constructor
  · simp [contentHandler, h1, h2]
  · simp [part005Handler, h1, h2, h3, h4]

/-- Witness for C10: the unimplemented `speakAd` action at a concrete
page. -/
theorem c10_unknown_action_noop_witness :
    ("speakAd" ≠ "createOverlays" ∧ "speakAd" ≠ "clearOverlays" ∧
     "speakAd" ≠ "getSkeletonHtml" ∧ "speakAd" ≠ "getAdSnippets") ∧
    contentHandler (fun _ => .noMatch)
      (Request.mk "speakAd" none []) [mkOverlay none] = ([mkOverlay none], none) :=
  ⟨⟨by decide, by decide, by decide, by decide⟩,
    (c10_unknown_action_noop (fun _ => .noMatch) "" (fun _ => none)
      (Request.mk "speakAd" none []) [mkOverlay none] []
      (by decide) (by decide) (by decide) (by decide)).1⟩

/-! ### Claim C7 — rendered count -/

/-- C7: for every ad list handed to `createOverlays`, the responded
count equals the number of ads whose selector resolves; hence it is at
most the list's length, with equality exactly when no selector fails to
resolve, and a failing selector merely skips its own ad (the count is a
filter over the whole list, so rendering of the remaining ads always
proceeds). -/
theorem c7_render_count (resolve : String → ResolveResult) (ads : List Ad)
    (page : PageState) :
    (contentHandler resolve (Request.mk "createOverlays" (some ads) []) page).2 =
      some (.result "success" (renderCount resolve ads)) ∧
    renderCount resolve ads ≤ ads.length ∧
    (renderCount resolve ads = ads.length ↔
      ∀ ad ∈ ads, resolvesOk (resolve ad.selector) = true) := by
  refine ⟨?_, List.length_filter_le _ _, List.filter_length_eq_length⟩
  cases ads with
  | nil => simp [contentHandler, renderCount, resolvedAds]
  | cons a as =>
    simp only [contentHandler]
    rw [renderLoop_spec]
    simp

/-- Witness for C7: two ads, one resolving and one whose selector
matches nothing — the response counts exactly the resolving one. -/
theorem c7_render_count_witness :
    (contentHandler (fun s => if s == "#ok" then .found else .noMatch)
      (Request.mk "createOverlays"
        (some [Ad.mk "#ok" none, Ad.mk "#gone" none]) []) []).2 =
      some (.result "success"
        (renderCount (fun s => if s == "#ok" then .found else .noMatch)
          [Ad.mk "#ok" none, Ad.mk "#gone" none])) :=
  (c7_render_count (fun s => if s == "#ok" then .found else .noMatch)
    [Ad.mk "#ok" none, Ad.mk "#gone" none] []).1

/-! ### Claims C1 and C8 — the confirmation stage -/

/-- Every failure path of `analyzeAdSnippet` yields the safe default. -/
theorem analyzeAdSnippet_default_of_failure (o : FetchOutcome)
    (h : isFailure o = true) : analyzeAdSnippet o = defaultResult := by
  cases o with
  | networkError => rfl
  | response ok text =>
    cases ok with
    | false => rfl
    | true =>
      cases text with
      | none => rfl
      | some t =>
        cases h2 : (t == "") with
        | true => simp [analyzeAdSnippet, h2]
        | false =>
          simp only [isFailure, Bool.not_true, Bool.false_or, h2,
            Bool.false_or] at h
          cases h3 : jsonParse (cleanOf t) with
          | some v => simp [h3] at h
          | none => simp [analyzeAdSnippet, h2, h3]

/-- The happy path of `analyzeAdSnippet` returns the parsed payload
verbatim. -/
theorem analyzeAdSnippet_of_parsed (o : FetchOutcome) (v : JsValue)
    (h : parsedPayload o = some v) : analyzeAdSnippet o = v := by
  cases o with
  | networkError => exact absurd h (by simp [parsedPayload])
  | response ok text =>
    cases ok with
    | false => exact absurd h (by simp [parsedPayload])
    | true =>
      cases text with
      | none => exact absurd h (by simp [parsedPayload])
      | some t =>
        cases h2 : (t == "") with
        | true => simp [parsedPayload, h2] at h
        | false =>
          simp only [parsedPayload, Bool.not_true, Bool.false_eq_true,
            if_false, h2] at h
          simp [analyzeAdSnippet, h2, h]

/-- On every failure path `parsedPayload` is `none`; conversely a
`none` payload means the failure condition held. -/
theorem parsedPayload_none_iff_failure (o : FetchOutcome) :
    parsedPayload o = none ↔ isFailure o = true := by
  cases o with
  | networkError => simp [parsedPayload, isFailure]
  | response ok text =>
    cases ok with
    | false => simp [parsedPayload, isFailure]
    | true =>
      cases text with
      | none => simp [parsedPayload, isFailure]
      | some t =>
        cases h2 : (t == "") with
        | true => simp [parsedPayload, isFailure, h2]
        | false =>
          simp [parsedPayload, isFailure, h2, Option.isNone_iff_eq_none]

/-- C1 (amended): in the confirmation fan-out, a request whose fetch
rejects, returns a non-success status, yields no (or empty)
classification text, or yields text that fails to parse as JSON after
fence stripping, resolves to exactly `{isAd: false, description: ""}`;
no exception escapes (the classifier is a total function); and every
other slot of the fan-in holds exactly its own request's result,
unaffected by the failure.  (The claim's further premise — a payload
that parses but is not an object with exactly the two expected keys —
does *not* produce the safe default: the code returns any parsed
payload verbatim; see the counterexample.) -/
theorem c1_failure_safe_default (outs : Nat → FetchOutcome) (n i : Nat)
    (hi : i < n) (hf : isFailure (outs i) = true) :
    (classifyAll outs n)[i]? = some defaultResult ∧
    ∀ j, j < n → (classifyAll outs n)[j]? = some (analyzeAdSnippet (outs j)) := by
  constructor
  · simp [classifyAll, List.getElem?_map, List.getElem?_range, hi,
      analyzeAdSnippet_default_of_failure (outs i) hf]
  · intro j hj
    simp [classifyAll, List.getElem?_map, List.getElem?_range, hj]

/-- The concrete fan-out of the C1 witness: request 0 fails in
transport, request 1 succeeds with a conforming payload. -/
def c1Outs : Nat → FetchOutcome := fun i =>
  if i == 0 then FetchOutcome.networkError
  else FetchOutcome.response true (some "\x7b\"isAd\": false, \"description\": \"\"\x7d")

/-- Witness for C1: in the two-request batch `c1Outs`, slot 0 resolves
to the safe default. -/
theorem c1_failure_safe_default_witness :
    (0 < 2 ∧ isFailure (c1Outs 0) = true) ∧
    (classifyAll c1Outs 2)[0]? = some defaultResult :=
  ⟨⟨by decide, rfl⟩, (c1_failure_safe_default c1Outs 2 0 (by decide) rfl).1⟩

/-- C1 counterexample: the payload `true` is well-formed JSON but not a
single object with the two expected keys, yet the request's
ClassificationResult is the parsed value `true`, not the safe default
`{isAd: false, description: ""}` — the code never validates the parsed
shape. -/
theorem c1_counterexample :
    jsonParse (cleanOf "true") = some (.bool true) ∧
    isTwoKeyObj (.bool true) = false ∧
    analyzeAdSnippet (.response true (some "true")) = .bool true ∧
    analyzeAdSnippet (.response true (some "true")) ≠ defaultResult := by
  refine ⟨rfl, rfl, rfl, ?_⟩
  intro h
  rw [show analyzeAdSnippet (.response true (some "true")) = .bool true from rfl] at h
  exact JsValue.noConfusion h

/-- C8 (amended): a ClassificationResult either is the safe default —
which satisfies the description-nonempty-iff-isAd invariant — or is the
verbatim parsed AI payload; the confirmation stage never enforces the
invariant on parsed payloads, so it holds exactly when the payload
itself satisfies it. -/
theorem c8_invariant_only_by_payload (o : FetchOutcome) :
    (analyzeAdSnippet o = defaultResult ∧ classInvariant defaultResult = true) ∨
    parsedPayload o = some (analyzeAdSnippet o) := by
  rcases h : parsedPayload o with _ | v
  · left
    exact ⟨analyzeAdSnippet_default_of_failure o
      ((parsedPayload_none_iff_failure o).mp h), rfl⟩
  · right
    rw [analyzeAdSnippet_of_parsed o v h]

/-- C8 counterexample: a successful request whose payload is
`{"isAd": true, "description": ""}` — a well-formed two-key object with
`isAd` true and an *empty* description — is passed through verbatim, so
the produced ClassificationResult violates the invariant. -/
theorem c8_counterexample :
    analyzeAdSnippet
      (.response true (some "\x7b\"isAd\": true, \"description\": \"\"\x7d")) =
      .obj [("isAd", .bool true), ("description", .str "")] ∧
    isAdTrue (.obj [("isAd", .bool true), ("description", .str "")]) = true ∧
    descNonempty (.obj [("isAd", .bool true), ("description", .str "")]) = false ∧
    classInvariant
      (analyzeAdSnippet
        (.response true (some "\x7b\"isAd\": true, \"description\": \"\"\x7d"))) = false :=
  ⟨rfl, rfl, rfl, rfl⟩

/-! ### Claim C2 — missing credential -/

/-- C2 (amended): the skeleton-strategy orchestrator (part_000) checks
the credential right after injection — with the credential absent it
returns the distinguished error, opens the configuration surface, and
its trace contains no discovery step and no network request.  The
direct-heuristic orchestrator (part_002) instead runs the Discovery
Strategy first: with the credential absent it returns the error and
opens configuration only when discovery produced at least one
candidate — still before any network request — and with zero candidates
it returns success of count 0 without ever consulting the credential. -/
theorem c2_credential_check (env0 : Env0) (env2 : Env2)
    (page0 page2 : PageState)
    (h0 : env0.apiKey = none) (h2 : env2.apiKey = none) :
    ((scanForAds000 env0 page0).result = .error configMsg ∧
     (scanForAds000 env0 page0).trace = [.inject, .readKey, .openOptions]) ∧
    (env2.candidates = [] →
      (scanForAds002 env2 page2).result = .success 0 ∧
      (scanForAds002 env2 page2).trace = [.inject, .discover]) ∧
    (env2.candidates ≠ [] →
      (scanForAds002 env2 page2).result = .error configMsg ∧
      (scanForAds002 env2 page2).trace = [.inject, .discover, .readKey, .openOptions]) := by
  refine ⟨?_, ?_, ?_⟩
  · simp [scanForAds000, h0]
  · intro hc
    simp [scanForAds002, hc]
  · intro hc
    rw [← List.isEmpty_eq_false] at hc
    simp [scanForAds002, hc, h2]

/-- Concrete part_000 environment with the credential absent. -/
def c2Env0 : Env0 :=
  { apiKey := none, skeleton := none, stage1 := .networkError,
    snip := fun _ => none, outcomes := fun _ => .networkError,
    resolve := fun _ => .noMatch }

/-- Concrete part_002 environment with the credential absent and one
discovered candidate. -/
def c2Env2 : Env2 :=
  { apiKey := none, candidates := [Candidate.mk "#ad" "<div>x</div>"],
    outcomes := fun _ => .networkError, resolve := fun _ => .noMatch }

/-- Witness for C2 at the concrete credentialless environments. -/
theorem c2_credential_check_witness :
    (c2Env0.apiKey = none ∧ c2Env2.apiKey = none ∧ c2Env2.candidates ≠ []) ∧
    (scanForAds000 c2Env0 []).result = .error configMsg ∧
    (scanForAds002 c2Env2 []).result = .error configMsg :=
  ⟨⟨rfl, rfl, fun h => List.noConfusion h⟩,
    ((c2_credential_check c2Env0 c2Env2 [] [] rfl rfl).1).1,
    ((c2_credential_check c2Env0 c2Env2 [] [] rfl rfl).2.2
      (fun h => List.noConfusion h)).1⟩

/-- Concrete part_002 environment with the credential absent and zero
discovered candidates. -/
def c2CtrEnv : Env2 :=
  { apiKey := none, candidates := [],
    outcomes := fun _ => .networkError, resolve := fun _ => .noMatch }

/-- C2 counterexample: in the direct-heuristic orchestrator a scan with
the credential absent and zero discovered candidates returns
`{status: "success", count: 0}` — not the distinguished error — and
never signals the configuration surface; moreover discovery has already
run before the credential would have been read. -/
theorem c2_counterexample :
    c2CtrEnv.apiKey = none ∧
    (scanForAds002 c2CtrEnv []).result = .success 0 ∧
    (scanForAds002 c2CtrEnv []).result ≠ .error configMsg ∧
    Event.openOptions ∉ (scanForAds002 c2CtrEnv []).trace ∧
    (scanForAds002 c2Env2 []).trace = [.inject, .discover, .readKey, .openOptions] := by
  refine ⟨rfl, rfl, by decide, by decide, by decide⟩

/-! ### Claim C3 — clear-before-render -/

/-- C3 (amended): whenever the `createOverlays` handler runs, the page
it leaves is the old page with every overlay removed, followed by the
newly rendered overlays — so clearing precedes every addition — but a
scan that confirms zero ads never sends `createOverlays` at all and
leaves previously-rendered overlays on the page untouched. -/
theorem c3_clear_before_render (resolve : String → ResolveResult)
    (ads : List Ad) (page : PageState) (env : Env2)
    (hc : confirmed002 env = []) :
    (contentHandler resolve (Request.mk "createOverlays" (some ads) []) page).1 =
      clearExistingOverlays page ++
        (resolvedAds resolve ads).map (fun ad => mkOverlay ad.description) ∧
    (∀ e ∈ clearExistingOverlays page, isOverlay e = false) ∧
    (scanForAds002 env page).page = page := by
  refine ⟨?_, ?_, ?_⟩
  · cases ads with
    | nil => simp [contentHandler, resolvedAds]
    | cons a as =>
      simp only [contentHandler]
      rw [renderLoop_spec]
      simp
  · intro e he
    have := List.mem_filter.mp he
    simpa using this.2
  · by_cases hemp : env.candidates.isEmpty
    · simp [scanForAds002, hemp]
    · cases hk : env.apiKey with
      | none => simp [scanForAds002, hemp, hk]
      | some k =>
        simp [scanForAds002, hemp, hk, hc]

/-- Concrete part_002 environment whose single candidate fails its
confirmation request, so the scan confirms zero ads. -/
def c3Env : Env2 :=
  { apiKey := some "key", candidates := [Candidate.mk "#ad" "<div>x</div>"],
    outcomes := fun _ => .networkError, resolve := fun _ => .noMatch }

/-- A page still carrying one overlay from a previous scan. -/
def c3Page : PageState := [mkOverlay (some (.str "old ad"))]

/-- Witness for C3: at `c3Env`, a `createOverlays` run over `c3Page`
clears the old overlay, and the zero-confirmed scan leaves the page
as-is. -/
theorem c3_clear_before_render_witness :
    confirmed002 c3Env = [] ∧
    (contentHandler (fun _ => .found)
      (Request.mk "createOverlays" (some [Ad.mk "#new" none]) []) c3Page).1 =
      clearExistingOverlays c3Page ++
        (resolvedAds (fun _ => .found) [Ad.mk "#new" none]).map
          (fun ad => mkOverlay ad.description) ∧
    (scanForAds002 c3Env c3Page).page = c3Page :=
  ⟨rfl,
    (c3_clear_before_render (fun _ => .found) [Ad.mk "#new" none] c3Page c3Env rfl).1,
    (c3_clear_before_render (fun _ => .found) [Ad.mk "#new" none] c3Page c3Env rfl).2.2⟩

/-- C3 counterexample: a scan that confirms zero ads (its only
candidate's request fails) completes with `{status: "success",
count: 0}` but leaves the previously-rendered overlay on the page —
the claim's "a new scan that confirms zero ads still leaves zero
previously-rendered overlays" is false. -/
theorem c3_counterexample :
    overlayCount c3Page = 1 ∧
    (scanForAds002 c3Env c3Page).result = .success 0 ∧
    (scanForAds002 c3Env c3Page).page = c3Page ∧
    overlayCount (scanForAds002 c3Env c3Page).page = 1 :=
  ⟨rfl, rfl, rfl, rfl⟩

/-! ### Claim C6 — heuristic candidates and the size/visibility filter -/

/-- Anything `addCandidate` folds into the accumulator either was
already there or is the candidate of some element of the pass that
passed the size-and-visibility filter. -/
theorem mem_foldl_addCandidate (l : List ElemInfo) (acc : List Candidate)
    (c : Candidate) (h : c ∈ l.foldl addCandidate acc) :
    c ∈ acc ∨ ∃ e, e ∈ l ∧ passesFilter e = true ∧ c = mkCand e := by
  induction l generalizing acc with
  | nil => exact .inl (by simpa using h)
  | cons x xs ih =>
    simp only [List.foldl_cons] at h
    rcases ih (addCandidate acc x) h with hacc | ⟨e, he, hp, hc⟩
    · unfold addCandidate at hacc
      cases hpx : passesFilter x with
      | false =>
        rw [hpx] at hacc
        exact .inl (by simpa using hacc)
      | true =>
        rw [hpx] at hacc
        simp only [if_true] at hacc
        by_cases hd : acc.any (fun d => d.selector == x.selector) = true
        · rw [if_pos hd] at hacc
          exact .inl hacc
        · rw [if_neg hd] at hacc
          rcases List.mem_append.mp hacc with hacc | hacc
          · exact .inl hacc
          · exact .inr ⟨x, List.mem_cons_self x xs, hpx, by simpa using hacc⟩
    · exact .inr ⟨e, List.mem_cons_of_mem x he, hp, hc⟩

/-- One detector pass: a candidate folded in over a filtered sub-list
of the document either was already accumulated or comes from a document
element that passed the filter. -/
theorem c6Step (els : List ElemInfo) (P : ElemInfo → Bool)
    (acc : List Candidate) (c : Candidate)
    (h : c ∈ (els.filter P).foldl addCandidate acc) :
    c ∈ acc ∨ ∃ e, e ∈ els ∧ passesFilter e = true ∧ c = mkCand e := by
  rcases mem_foldl_addCandidate _ _ _ h with h | ⟨e, he, hp, hc⟩
  · exact .inl h
  · exact .inr ⟨e, (List.mem_filter.mp he).1, hp, hc⟩

/-- C6 (amended): every candidate produced by part_006's
`findPotentialAds` — whichever of the six detectors nominated it —
stems from a document element satisfying the minimum-size and
visibility filter: bounding-box height and width above 30 and a
non-null `offsetParent`.  (In part_003 the ad-network iframe detector
bypasses the filter; see the counterexample.) -/
theorem c6_candidates_filtered (els : List ElemInfo) (c : Candidate)
    (h : c ∈ findPotentialAds006 els) :
    ∃ e, e ∈ els ∧ c = mkCand e ∧
      e.height > 30 ∧ e.width > 30 ∧ e.offsetParentNull = false := by
  unfold findPotentialAds006 at h
  have step : ∀ P acc, c ∈ (els.filter P).foldl addCandidate acc →
      c ∈ acc ∨ ∃ e, e ∈ els ∧ passesFilter e = true ∧ c = mkCand e :=
    fun P acc hh => c6Step els P acc c hh
  have out : c ∈ ([] : List Candidate) ∨
      ∃ e, e ∈ els ∧ passesFilter e = true ∧ c = mkCand e := by
    rcases step _ _ h with h5 | he
    · rcases step _ _ h5 with h4 | he
      · rcases step _ _ h4 with h3 | he
        · rcases step _ _ h3 with h2 | he
          · rcases step _ _ h2 with h1 | he
            · rcases step _ _ h1 with h0 | he
              · exact .inl h0
              · exact .inr he
            · exact .inr he
          · exact .inr he
        · exact .inr he
      · exact .inr he
    · exact .inr he
  rcases out with h0 | ⟨e, he, hp, hc⟩
  · exact absurd h0 (List.not_mem_nil c)
  · refine ⟨e, he, hc, ?_⟩
    have hp' := by simpa [passesFilter] using hp
    exact ⟨hp'.1.1, hp'.1.2, hp'.2⟩

/-- A visible, large, keyword-matching element for the C6 witness. -/
def c6Elem : ElemInfo :=
  { tag := "div", id := "ad-banner", className := "", selector := "#ad-banner",
    outerHTML := "<div id=\"ad-banner\"></div>", height := 50, width := 300,
    offsetParentNull := false, src := "", targetBlank := false,
    hasImgChild := false, role := "", ariaLabel := "", dataAdClient := false,
    dataAdSlot := false, dataAdFormat := false, dataAdManagerId := false,
    position := "static", top := none, bottom := none }

/-- Witness for C6: the candidate nominated for `c6Elem` comes from an
element passing the filter. -/
theorem c6_candidates_filtered_witness :
    mkCand c6Elem ∈ findPotentialAds006 [c6Elem] ∧
    ∃ e, e ∈ [c6Elem] ∧ mkCand c6Elem = mkCand e ∧
      e.height > 30 ∧ e.width > 30 ∧ e.offsetParentNull = false :=
  ⟨by decide, c6_candidates_filtered [c6Elem] (mkCand c6Elem) (by decide)⟩

/-- An invisible 10×10 ad-network iframe. -/
def c6Iframe : ElemInfo :=
  { tag := "iframe", id := "", className := "",
    selector := "body > iframe:nth-child(1)", outerHTML := "<iframe></iframe>",
    height := 10, width := 10, offsetParentNull := true,
    src := "https://googlesyndication.com/ads", targetBlank := false,
    hasImgChild := false, role := "", ariaLabel := "", dataAdClient := false,
    dataAdSlot := false, dataAdFormat := false, dataAdManagerId := false,
    position := "static", top := none, bottom := none }

/-- C6 counterexample: part_003's ad-network iframe detector (lines
53-60) pushes its nominations without the size-and-visibility check, so
a 10×10 iframe with `offsetParent === null` becomes a candidate even
though it fails the filter. -/
theorem c6_counterexample :
    findPotentialAds003 [c6Iframe] = [mkCand c6Iframe] ∧
    passesFilter c6Iframe = false ∧
    ¬(c6Iframe.height > 30) := by
  refine ⟨by decide, rfl, by decide⟩

/-! ### Claims C4 and C5 — the Selector Generator -/

/-- Step equation of `subAt` at a valid child. -/
theorem subAt_cons_some (d : Dom) {i : Nat} {c : Dom}
    (hc : (childrenOf d)[i]? = some c) (p : List Nat) :
    subAt d (i :: p) = subAt c p := by
  simp only [subAt, hc]

/-- Step equation of `stepsTy` at a valid child. -/
theorem stepsTy_cons_some (d : Dom) {i : Nat} {c : Dom}
    (hc : (childrenOf d)[i]? = some c) (p : List Nat) :
    stepsTy d (i :: p) =
      (stepsTy c p).map (fun rest => (tagOf c, typeIndex (childrenOf d) i) :: rest) := by
  simp only [stepsTy, hc]

/-- Step equation of `stepsCh` at a valid child. -/
theorem stepsCh_cons_some (d : Dom) {i : Nat} {c : Dom}
    (hc : (childrenOf d)[i]? = some c) (p : List Nat) :
    stepsCh d (i :: p) =
      (stepsCh c p).map (fun rest => (tagOf c, i + 1) :: rest) := by
  simp only [stepsCh, hc]

/-- Unfolding of `typeIndex` at a valid child. -/
theorem typeIndex_eq (cs : List Dom) {i : Nat} {c : Dom} (hc : cs[i]? = some c) :
    typeIndex cs i = ((cs.take i).filter (fun d => tagOf d == tagOf c)).length + 1 := by
  unfold typeIndex
  rw [hc]

/-- The `nth-of-type` index is strictly monotone along same-tag
siblings, which makes it injective among them. -/
theorem typeIndex_strict_mono (cs : List Dom) (i j : Nat) (ci cj : Dom)
    (hij : i < j) (hci : cs[i]? = some ci) (hcj : cs[j]? = some cj)
    (ht : tagOf ci = tagOf cj) : typeIndex cs i < typeIndex cs j := by
  rw [typeIndex_eq cs hci, typeIndex_eq cs hcj, ht]
  have hstep : ((cs.take (i + 1)).filter (fun d => tagOf d == tagOf cj)).length =
      ((cs.take i).filter (fun d => tagOf d == tagOf cj)).length + 1 := by
    rw [List.take_succ, List.filter_append, List.length_append, hci]
    simp [ht]
  have hmono : ((cs.take (i + 1)).filter (fun d => tagOf d == tagOf cj)).length ≤
      ((cs.take j).filter (fun d => tagOf d == tagOf cj)).length :=
    ((List.take_prefix_take_left cs hij).filter _).length_le
  omega

/-- A boolean predicate on `range n` that holds exactly at `i` filters
to the singleton `[i]`. -/
theorem filter_range_singleton (n i : Nat) (p : Nat → Bool) (hi : i < n)
    (hp : p i = true) (huniq : ∀ j, j < n → p j = true → j = i) :
    (List.range n).filter p = [i] := by
  induction n with
  | zero => omega
  | succ m ih =>
    rw [List.range_succ, List.filter_append]
    rcases Nat.lt_or_ge i m with him | him
    · rw [ih him (fun j hj hpj => huniq j (Nat.lt_succ_of_lt hj) hpj)]
      have hpm : p m = false := by
        cases hpm : p m with
        | false => rfl
        | true => exact absurd (huniq m (Nat.lt_succ_self m) hpm) (by omega)
      simp [hpm]
    · have him' : i = m := by omega
      subst him'
      have hnil : (List.range i).filter p = [] := by
        rw [List.filter_eq_nil_iff]
        intro j hj
        rcases hpj : p j with _ | _
        · simp
        · exact absurd (huniq j (Nat.lt_succ_of_lt (List.mem_range.mp hj)) hpj)
            (by have := List.mem_range.mp hj; omega)
      rw [hnil]
      simp [hp]

/-- The generated `tag:nth-of-type(k)` step of a child matches exactly
that child among its siblings. -/
theorem matchTy_eq (d : Dom) (i : Nat) (c : Dom)
    (hc : (childrenOf d)[i]? = some c) :
    matchTy d (tagOf c) (typeIndex (childrenOf d) i) = [i] := by
  unfold matchTy
  apply filter_range_singleton
  · exact (List.getElem?_eq_some.mp hc).1
  · rw [hc]
    simp
  · intro j hj hpj
    cases hcj : (childrenOf d)[j]? with
    | none => rw [hcj] at hpj; simp at hpj
    | some cj =>
      rw [hcj] at hpj
      have hpj' := Bool.and_eq_true_iff.mp hpj
      have htag : tagOf cj = tagOf c := beq_iff_eq.mp hpj'.1
      have hidx : typeIndex (childrenOf d) j = typeIndex (childrenOf d) i :=
        beq_iff_eq.mp hpj'.2
      rcases Nat.lt_trichotomy j i with h | h | h
      · exact absurd (typeIndex_strict_mono _ j i cj c h hcj hc htag) (by omega)
      · exact h
      · exact absurd (typeIndex_strict_mono _ i j c cj h hc hcj htag.symm) (by omega)

/-- The generated `tag:nth-child(k)` step of a child matches exactly
that child. -/
theorem matchCh_eq (d : Dom) (i : Nat) (c : Dom)
    (hc : (childrenOf d)[i]? = some c) :
    matchCh d (tagOf c) (i + 1) = [i] := by
  unfold matchCh
  apply filter_range_singleton
  · exact (List.getElem?_eq_some.mp hc).1
  · rw [hc]
    simp
  · intro j hj hpj
    have hpj' := Bool.and_eq_true_iff.mp hpj
    have := beq_iff_eq.mp hpj'.2
    omega

/-- A valid path has a full `nth-of-type` step list. -/
theorem stepsTy_some (p : List Nat) : ∀ (d e : Dom), subAt d p = some e →
    ∃ steps, stepsTy d p = some steps := by
  induction p with
  | nil => exact fun d e _ => ⟨[], rfl⟩
  | cons i p' ih =>
    intro d e hsub
    cases hc : (childrenOf d)[i]? with
    | none =>
      rw [subAt] at hsub
      rw [hc] at hsub
      exact absurd hsub (by simp)
    | some c =>
      rw [subAt_cons_some d hc p'] at hsub
      rcases ih c e hsub with ⟨steps, hsteps⟩
      refine ⟨(tagOf c, typeIndex (childrenOf d) i) :: steps, ?_⟩
      rw [stepsTy_cons_some d hc p', hsteps]
      rfl

/-- A valid path has a full `nth-child` step list. -/
theorem stepsCh_some (p : List Nat) : ∀ (d e : Dom), subAt d p = some e →
    ∃ steps, stepsCh d p = some steps := by
  induction p with
  | nil => exact fun d e _ => ⟨[], rfl⟩
  | cons i p' ih =>
    intro d e hsub
    cases hc : (childrenOf d)[i]? with
    | none =>
      rw [subAt] at hsub
      rw [hc] at hsub
      exact absurd hsub (by simp)
    | some c =>
      rw [subAt_cons_some d hc p'] at hsub
      rcases ih c e hsub with ⟨steps, hsteps⟩
      refine ⟨(tagOf c, i + 1) :: steps, ?_⟩
      rw [stepsCh_cons_some d hc p', hsteps]
      rfl

/-- Resolving the `nth-of-type` steps of a valid path yields exactly
that path: the generated selector matches one element, the original. -/
theorem resolveTy_singleton (p : List Nat) : ∀ (d : Dom) (steps : List (String × Nat)),
    stepsTy d p = some steps → resolveTy d steps = [p] := by
  induction p with
  | nil =>
    intro d steps h
    unfold stepsTy at h
    cases h
    rfl
  | cons i p' ih =>
    intro d steps h
    cases hc : (childrenOf d)[i]? with
    | none =>
      rw [stepsTy] at h
      rw [hc] at h
      exact absurd h (by simp)
    | some c =>
      rw [stepsTy_cons_some d hc p'] at h
      cases hrest : stepsTy c p' with
      | none => rw [hrest] at h; exact absurd h (by simp)
      | some rest =>
        rw [hrest] at h
        simp only [Option.map_some'] at h
        cases h
        unfold resolveTy
        rw [matchTy_eq d i c hc]
        simp only [List.flatMap_cons, List.flatMap_nil, List.append_nil]
        rw [hc]
        show List.map (fun q => i :: q) (resolveTy c rest) = [i :: p']
        rw [ih c rest hrest]
        rfl

/-- Resolving the `nth-child` steps of a valid path also yields exactly
that path. -/
theorem resolveCh_singleton (p : List Nat) : ∀ (d : Dom) (steps : List (String × Nat)),
    stepsCh d p = some steps → resolveCh d steps = [p] := by
  induction p with
  | nil =>
    intro d steps h
    unfold stepsCh at h
    cases h
    rfl
  | cons i p' ih =>
    intro d steps h
    cases hc : (childrenOf d)[i]? with
    | none =>
      rw [stepsCh] at h
      rw [hc] at h
      exact absurd h (by simp)
    | some c =>
      rw [stepsCh_cons_some d hc p'] at h
      cases hrest : stepsCh c p' with
      | none => rw [hrest] at h; exact absurd h (by simp)
      | some rest =>
        rw [hrest] at h
        simp only [Option.map_some'] at h
        cases h
        unfold resolveCh
        rw [matchCh_eq d i c hc]
        simp only [List.flatMap_cons, List.flatMap_nil, List.append_nil]
        rw [hc]
        show List.map (fun q => i :: q) (resolveCh c rest) = [i :: p']
        rw [ih c rest hrest]
        rfl

/-- C4 (amended): for an attached element strictly below the body with
no id (and no `body`-tagged proper ancestor below the root, so the
source walk reaches the body), part_005's generator emits the
`tag:nth-of-type(k)` path — `k` the 1-based position among same-tag
siblings — and those steps resolve to exactly one element, the original;
part_006's (and part_003's) generator instead emits `tag:nth-child(k)`
with `k` the 1-based position among *all* siblings, which also resolves
to exactly the original element. -/
theorem c4_path_selector (body : Dom) (p : List Nat) (e : Dom)
    (hsub : subAt body p = some e) (_hne : p ≠ []) (hid : idOf e = "")
    (_hbf : innerBodyFree body p = true) :
    (∃ steps, stepsTy body p = some steps ∧
      getUniqueSelector005 body p = some (renderTy steps) ∧
      resolveTy body steps = [p]) ∧
    (∃ steps, stepsCh body p = some steps ∧
      getUniqueSelector006 body p = some (renderCh steps) ∧
      getUniqueSelector003 body p = some (renderCh steps) ∧
      resolveCh body steps = [p]) := by
  constructor
  · rcases stepsTy_some p body e hsub with ⟨steps, hsteps⟩
    refine ⟨steps, hsteps, ?_, resolveTy_singleton p body steps hsteps⟩
    simp [getUniqueSelector005, hsub, hid, hsteps]
  · rcases stepsCh_some p body e hsub with ⟨steps, hsteps⟩
    refine ⟨steps, hsteps, ?_, ?_, resolveCh_singleton p body steps hsteps⟩
    · simp [getUniqueSelector006, hsub, hid, hsteps]
    · simp [getUniqueSelector003, hsub, hid, hsteps]

/-- A small body for the C4 witness: two divs, the first containing two
spans; the witness element is the second span. -/
def c4Body : Dom :=
  .el "body" ""
    [.el "div" "" [.el "span" "" [], .el "span" "" []],
     .el "div" "" []]

/-- Witness for C4 at the second span of `c4Body`: its `nth-of-type`
selector is `body > div:nth-of-type(1) > span:nth-of-type(2)` and both
step forms resolve back to exactly that element. -/
theorem c4_path_selector_witness :
    (subAt c4Body [0, 1] = some (.el "span" "" []) ∧
     ([0, 1] : List Nat) ≠ [] ∧ idOf (.el "span" "" []) = "" ∧
     innerBodyFree c4Body [0, 1] = true) ∧
    ((∃ steps, stepsTy c4Body [0, 1] = some steps ∧
       getUniqueSelector005 c4Body [0, 1] = some (renderTy steps) ∧
       resolveTy c4Body steps = [[0, 1]]) ∧
     (∃ steps, stepsCh c4Body [0, 1] = some steps ∧
       getUniqueSelector006 c4Body [0, 1] = some (renderCh steps) ∧
       getUniqueSelector003 c4Body [0, 1] = some (renderCh steps) ∧
       resolveCh c4Body steps = [[0, 1]])) :=
  ⟨⟨rfl, by decide, rfl, rfl⟩,
    c4_path_selector c4Body [0, 1] (.el "span" "" []) rfl (by decide) rfl rfl⟩

/-- A body whose second child is a `div` preceded by a `span`. -/
def c4CtrBody : Dom :=
  .el "body" "" [.el "span" "" [], .el "div" "" []]

/-- C4 counterexample: for the (sole) `div` of `c4CtrBody`, part_006's
generator — one of the two cited Selector Generators — emits
`body > div:nth-child(2)`: the step is `nth-child`, not `nth-of-type`,
and its index 2 is the position among all siblings, not the 1-based
position among same-tag siblings, which is 1. -/
theorem c4_counterexample :
    getUniqueSelector006 c4CtrBody [1] = some "body > div:nth-child(2)" ∧
    typeIndex (childrenOf c4CtrBody) 1 = 1 ∧
    renderTy [("div", 1)] = "body > div:nth-of-type(1)" ∧
    getUniqueSelector006 c4CtrBody [1] ≠ some (renderTy [("div", 1)]) := by
  refine ⟨by decide, by decide, by decide, by decide⟩

/-- `String.mk` of a string's own characters is that string. -/
theorem strMkData (s : String) : String.mk s.data = s := by
  cases s
  rfl

/-- Colon-escaping round-trips through the id-selector parser for ids
made of plain ident characters and colons. -/
theorem parseIdent_escChars (cs : List Char)
    (h : ∀ c ∈ cs, identChar c = true ∨ c = ':') :
    parseIdent (escChars cs) = some cs := by
  induction cs with
  | nil => rfl
  | cons c cs ih =>
    have htail : ∀ x ∈ cs, identChar x = true ∨ x = ':' :=
      fun x hx => h x (List.mem_cons_of_mem c hx)
    rcases h c (List.mem_cons_self c cs) with hc | hc
    · have hne : ¬(c = '\\') := by
        intro he
        rw [he] at hc
        exact absurd hc (by decide)
      have hne2 : ¬(c = ':') := by
        intro he
        rw [he] at hc
        exact absurd hc (by decide)
      simp only [escChars, if_neg hne2]
      rw [parseIdent.eq_def]
      simp [hne, hc, ih htail]
    · subst hc
      simp only [escChars, if_pos rfl]
      rw [parseIdent.eq_def]
      simp [ih htail]

/-- The embedded grammar enforces the CSS ident-start restriction:
`#1ad` and `#-1x` throw (a digit cannot open an identifier), and ids
opening with a digit fall outside `idSafe`. -/
theorem parseIdSel_identStart :
    parseIdSel "#1ad" = none ∧ parseIdSel "#-1x" = none ∧
    parseIdSel "#-" = none ∧ idSafe "1ad" = false ∧
    parseIdSel "#a1d" = some "a1d" := by
  refine ⟨by decide, by decide, by decide, by decide, by decide⟩

/-- C5 (amended): for an element with an id, part_005's and part_006's
generators return the id selector with colons escaped, unconditionally
preferring it to path construction; for an id of plain ident characters
and colons that opens as a CSS identifier may (no leading digit, no
digit-leading hyphen) and is unique in the document, that selector
parses back to the id and matches exactly the original element.
(part_003 emits the id unescaped, so an id containing a colon yields a
selector whose resolution throws; see the counterexample.) -/
theorem c5_id_selector (doc : Dom) (p : List Nat) (e : Dom)
    (hsub : subAt doc p = some e) (hid : idOf e ≠ "")
    (hsafe : idSafe (idOf e) = true)
    (huniq : ∀ q, idMatches doc q (idOf e) = true → q = p) :
    getUniqueSelector005 doc p = some ("#" ++ escapeColons (idOf e)) ∧
    getUniqueSelector006 doc p = some ("#" ++ escapeColons (idOf e)) ∧
    parseIdSel ("#" ++ escapeColons (idOf e)) = some (idOf e) ∧
    (∀ q, idMatches doc q (idOf e) = true ↔ q = p) := by
  have hsafe2 := Bool.and_eq_true_iff.mp hsafe
  have hstart : identStartOk (escChars (idOf e).data) = true := hsafe2.2
  have hsafe' : ∀ c ∈ (idOf e).data, identChar c = true ∨ c = ':' := by
    intro c hcmem
    have := List.all_eq_true.mp hsafe2.1 c hcmem
    rcases Bool.or_eq_true_iff.mp this with h1 | h1
    · exact .inl h1
    · exact .inr (of_decide_eq_true h1)
  refine ⟨?_, ?_, ?_, ?_⟩
  · simp [getUniqueSelector005, hsub, hid]
  · simp [getUniqueSelector006, hsub, hid]
  · have hdata : ("#" ++ escapeColons (idOf e)).data = '#' :: escChars (idOf e).data := by
      rw [String.data_append]
      rfl
    have hnil : (idOf e).data ≠ [] := by
      intro hn
      exact hid (by rw [← strMkData (idOf e), hn])
    unfold parseIdSel
    rw [hdata]
    simp only []
    rw [if_pos hstart]
    rw [parseIdent_escChars (idOf e).data hsafe']
    cases hd : (idOf e).data with
    | nil => exact absurd hd hnil
    | cons c0 cs0 =>
      show some (String.mk (c0 :: cs0)) = some (idOf e)
      rw [← hd, strMkData]
  · intro q
    constructor
    · exact huniq q
    · intro hq
      subst hq
      unfold idMatches
      rw [hsub]
      simp

/-- The document of the C5 witness: one div with id `my:ad`. -/
def c5Doc : Dom :=
  .el "html" "" [.el "body" "" [.el "div" "my:ad" []]]

/-- In `c5Doc` the id `my:ad` occurs exactly at the div's path. -/
theorem c5UniqAux : ∀ q, idMatches c5Doc q "my:ad" = true → q = [0, 0] := by
  intro q hq
  match q with
  | [] => exact absurd hq (by decide)
  | [0] => exact absurd hq (by decide)
  | [0, 0] => rfl
  | 0 :: 0 :: k :: q3 =>
    exact absurd hq (by
      simp [idMatches, subAt, c5Doc, childrenOf, List.getElem?_nil])
  | 0 :: (j + 1) :: q2 =>
    exact absurd hq (by
      simp [idMatches, subAt, c5Doc, childrenOf, List.getElem?_cons_succ,
        List.getElem?_nil])
  | (i + 1) :: q1 =>
    exact absurd hq (by
      simp [idMatches, subAt, c5Doc, childrenOf, List.getElem?_cons_succ,
        List.getElem?_nil])

/-- Witness for C5 at the div of `c5Doc`: the escaped selector
`#my\:ad` is produced, parses back to the id `my:ad`, and matches
exactly the div. -/
theorem c5_id_selector_witness :
    (subAt c5Doc [0, 0] = some (.el "div" "my:ad" []) ∧
     idOf (Dom.el "div" "my:ad" []) ≠ "" ∧ idSafe "my:ad" = true) ∧
    (getUniqueSelector005 c5Doc [0, 0] = some ("#" ++ escapeColons "my:ad") ∧
     getUniqueSelector006 c5Doc [0, 0] = some ("#" ++ escapeColons "my:ad") ∧
     parseIdSel ("#" ++ escapeColons "my:ad") = some "my:ad" ∧
     (∀ q, idMatches c5Doc q "my:ad" = true ↔ q = [0, 0])) :=
  ⟨⟨rfl, by decide, by decide⟩,
    c5_id_selector c5Doc [0, 0] (.el "div" "my:ad" []) rfl (by decide)
      (by decide) c5UniqAux⟩

/-- A body whose only element carries the id `foo:bar`. -/
def c5CtrBody : Dom := .el "body" "" [.el "div" "foo:bar" []]

/-- C5 counterexample: part_003's generator emits the id selector with
*no* escaping, so for the unique id `foo:bar` it returns `#foo:bar`, in
which the colon is not escaped and which fails to parse (resolution
throws a SyntaxError) — while the escaped form `#foo\:bar` does parse
back to the id. -/
theorem c5_counterexample :
    getUniqueSelector003 c5CtrBody [0] = some "#foo:bar" ∧
    parseIdSel "#foo:bar" = none ∧
    parseIdSel "#foo\\:bar" = some "foo:bar" := by
  refine ⟨by decide, by decide, by decide⟩
